import Mathlib

/-!
Shallow embedding of `cachetclient` (a Cachet status-page API client),
centred on `src/cachetclient/v1/incidents.py`: the `Incident` resource and
`IncidentManager` (create / update / get / list / count / delete).

The generic base classes (`cachetclient.base.Manager`, `cachetclient.base.Resource`)
and the HTTP layer are not part of the sources; where their behaviour decides a
property they are modelled from the specification, and each such definition
carries a doc comment starting with `Modelled from the spec:`.

Python values stored in a resource's backing mapping are modelled by `JValue`;
Python `==` (as used by `self.get('visible') == 1`, where `True == 1` holds and
`"1" == 1` does not) is modelled by `pyEq`.
-/

set_option autoImplicit false

namespace Cachet

/-- A JSON / Python value as stored in a resource's `_data` mapping.
Python `None` and JSON `null` are both `JValue.null`. -/
inductive JValue where
  | null
  | bool (b : Bool)
  | int (n : Int)
  | str (s : String)
  | strList (vs : List String)
  deriving DecidableEq, Repr

/-- `true` iff the value is Python `None` / JSON `null`. -/
def JValue.isNull : JValue → Bool
  | .null => true
  | _ => false

/-- `true` iff the value is a Python `bool`. -/
def JValue.isBool : JValue → Bool
  | .bool _ => true
  | _ => false

/-- Numeric view used by Python `==`: `bool` is a subtype of `int` in Python,
so `True` compares equal to `1` and `False` to `0`. -/
def pyNum : JValue → Option Int
  | .bool b => some (if b then 1 else 0)
  | .int n => some n
  | _ => none

/-- Python `==` on stored values: numbers (including booleans) compare by
numeric value, strings by content, `None` only to `None`; values of
unrelated types are unequal (so `"1" == 1` is `False` in Python). -/
def pyEq (a b : JValue) : Bool :=
  match pyNum a, pyNum b with
  | some m, some n => m == n
  | _, _ =>
    match a, b with
    | .str s, .str t => s == t
    | .strList vs, .strList ws => vs == ws
    | .null, .null => true
    | _, _ => false

/-- The backing mapping `self._data` of a resource: a key → value mapping
(Python `dict` preserves insertion order; keys are unique). -/
abbrev DataDict := List (String × JValue)

/-- Lookup in the backing mapping, `self._data.get(name)`: the stored value,
or `None` (`JValue.null`) when the key is absent.
Modelled from the spec: `cachetclient.base.Resource.get` is not under `src/`;
per §3/§4.2 a getter reads the stored raw value, absent/null mapping to None. -/
def dataGet : DataDict → String → JValue
  | [], _ => .null
  | (k', v) :: rest, k => if k' = k then v else dataGet rest k

/-- Python `self._data[key] = value`: replace the value of an existing key in
place, else append the new key. -/
def dataSet : DataDict → String → JValue → DataDict
  | [], k, v => [(k, v)]
  | (k', v') :: rest, k, v =>
      if k' = k then (k, v) :: rest else (k', v') :: dataSet rest k v

/-- An HTTP verb issued through the `HttpClient` collaborator. -/
inductive Verb where
  | get
  | post
  | put
  | delete
  deriving DecidableEq, Repr

/-- One HTTP request issued by a manager operation (verb, URL path, and the
payload sent as request body / params). -/
structure HttpRequest where
  verb : Verb
  path : String
  payload : DataDict
  deriving DecidableEq, Repr

/-- Errors raised by the client. `valueError` embeds Python's builtin
`ValueError`, raised verbatim by `IncidentManager.update`'s validation check.
The remaining constructors are modelled from the spec: §7's taxonomy names
`ValidationError` (client-side), `NotFoundError` (404) and `ApiError`
(other non-2xx); no class of those names appears under `src/`. -/
inductive PyError where
  | valueError (msg : String)
  | validationError (msg : String)
  | notFoundError
  | apiError (status : Int)
  deriving DecidableEq, Repr

/-- `true` iff the result is an error of the spec's `ValidationError` class. -/
def isValidationError {α : Type} : Except PyError α → Bool
  | .error (.validationError _) => true
  | _ => false

/-- An `Incident` resource instance: wraps the `_data` mapping of one JSON
object (`cachetclient.v1.incidents.Incident`). -/
structure Incident where
  _data : DataDict
  deriving DecidableEq, Repr

/-- `Resource.get` on an incident (see `dataGet`). -/
def Incident.get (i : Incident) (k : String) : JValue :=
  dataGet i._data k

/-- Getter `Incident.id`: `return self.get('id')`. -/
def Incident.id (i : Incident) : JValue := i.get "id"

/-- Getter `Incident.component_id`: `return self.get('component_id')`. -/
def Incident.component_id (i : Incident) : JValue := i.get "component_id"

/-- Getter `Incident.name`: `return self.get('name')`. -/
def Incident.name (i : Incident) : JValue := i.get "name"

/-- Getter `Incident.message`: `return self.get('message')`. -/
def Incident.message (i : Incident) : JValue := i.get "message"

/-- Getter `Incident.notify`: `return self.get('notify')` — the raw stored
value, with no conversion (its docstring says `bool:`). -/
def Incident.notify (i : Incident) : JValue := i.get "notify"

/-- Getter `Incident.status`: `return self.get('status')`. -/
def Incident.status (i : Incident) : JValue := i.get "status"

/-- Getter `Incident.visible`: `return self.get('visible') == 1`
(Python `==` against the integer `1`, hence always a `bool`). -/
def Incident.visible (i : Incident) : Bool :=
  pyEq (i.get "visible") (.int 1)

/-- Setters stage a change in the local `_data` mapping only; they have no
access to the HTTP client. The returned list of requests records the HTTP
requests issued by the call, always `[]` for a setter.
Setter `Incident.component_id`: `self._data['component_id'] = value`. -/
def Incident.setComponentId (i : Incident) (value : Int) :
    Incident × List HttpRequest :=
  (⟨dataSet i._data "component_id" (.int value)⟩, [])

/-- Setter `Incident.name`: `self._data['name'] = value`. -/
def Incident.setName (i : Incident) (value : String) :
    Incident × List HttpRequest :=
  (⟨dataSet i._data "name" (.str value)⟩, [])

/-- Setter `Incident.message`: `self._data['message'] = value`. -/
def Incident.setMessage (i : Incident) (value : String) :
    Incident × List HttpRequest :=
  (⟨dataSet i._data "message" (.str value)⟩, [])

/-- Setter `Incident.notify`: `self._data['notify'] = value` (the raw
Python boolean is stored, not 0/1). -/
def Incident.setNotify (i : Incident) (value : Bool) :
    Incident × List HttpRequest :=
  (⟨dataSet i._data "notify" (.bool value)⟩, [])

/-- Setter `Incident.status`: `self._data['status'] = value`. -/
def Incident.setStatus (i : Incident) (value : Int) :
    Incident × List HttpRequest :=
  (⟨dataSet i._data "status" (.int value)⟩, [])

/-- Setter `Incident.visible`: `self._data['visible'] = value` (the raw
Python boolean is stored, not 0/1). -/
def Incident.setVisible (i : Incident) (value : Bool) :
    Incident × List HttpRequest :=
  (⟨dataSet i._data "visible" (.bool value)⟩, [])

/-- `value` for an optional `str` argument (`None` → `JValue.null`). -/
def optStr : Option String → JValue
  | some s => .str s
  | none => .null

/-- `value` for an optional `int` argument (`None` → `JValue.null`). -/
def optInt : Option Int → JValue
  | some n => .int n
  | none => .null

/-- `value` for an optional `List[str]` argument (`None` → `JValue.null`). -/
def optStrList : Option (List String) → JValue
  | some vs => .strList vs
  | none => .null

/-- Modelled from the spec: `cachetclient.base.Manager._build_data_dict` is not
under `src/`; per §4.1 the update payload is partial and "omits None fields",
so it keeps exactly the keyword arguments whose value is not `None`. -/
def buildDataDict (pairs : List (String × JValue)) : DataDict :=
  pairs.filter (fun p => !p.2.isNull)

/-- Arguments of `IncidentManager.create` with the source's types and
defaults (`name`, `message`, `status` are required; `visible` and `notify`
are `bool` defaulting to `True`; the rest default to `None`). -/
structure CreateArgs where
  name : String
  message : String
  status : Int
  visible : Bool := true
  component_id : Option Int := none
  component_status : Option Int := none
  notify : Bool := true
  created_at : Option String := none
  template : Option String := none
  template_vars : Option (List String) := none
  deriving DecidableEq, Repr

/-- The dict literal built by `IncidentManager.create` before it is handed to
`Manager._create` (booleans serialized as `1 if b else 0`, `template_vars`
sent under the key `vars`). -/
def createRawPairs (a : CreateArgs) : List (String × JValue) :=
  [("name", .str a.name),
   ("message", .str a.message),
   ("status", .int a.status),
   ("visible", .int (if a.visible then 1 else 0)),
   ("component_id", optInt a.component_id),
   ("component_status", optInt a.component_status),
   ("notify", .int (if a.notify then 1 else 0)),
   ("created_at", optStr a.created_at),
   ("template", optStr a.template),
   ("vars", optStrList a.template_vars)]

/-- `IncidentManager.create`, returning the POST request it issues.
Modelled from the spec: `cachetclient.base.Manager._create` is not under
`src/`; per §4.1 it "POSTs to resource path with non-null fields only",
so the `None`-valued entries of the dict are omitted from the body. -/
def incidentCreate (a : CreateArgs) : HttpRequest :=
  { verb := .post, path := "incidents", payload := buildDataDict (createRawPairs a) }

/-- Arguments of `IncidentManager.update` with the source's types and
defaults: `name`, `message`, `status`, `visible` default to `None`
(and are then rejected client-side); `notify : bool = True`. -/
structure UpdateArgs where
  name : Option String := none
  message : Option String := none
  status : Option Int := none
  visible : Option Bool := none
  component_id : Option Int := none
  component_status : Option Int := none
  notify : Bool := true
  created_at : Option String := none
  template : Option String := none
  template_vars : Option (List String) := none
  deriving DecidableEq, Repr

/-- The keyword arguments `IncidentManager.update` passes to
`_build_data_dict` (evaluated only after the validation check; Python's
`1 if visible else 0` treats `None` as falsy). -/
def updateRawPairs (a : UpdateArgs) : List (String × JValue) :=
  [("name", optStr a.name),
   ("message", optStr a.message),
   ("status", optInt a.status),
   ("visible", .int (if a.visible.getD false then 1 else 0)),
   ("component_id", optInt a.component_id),
   ("component_status", optInt a.component_status),
   ("notify", .int (if a.notify then 1 else 0)),
   ("created_at", optStr a.created_at),
   ("template", optStr a.template),
   ("vars", optStrList a.template_vars)]

/-- `IncidentManager.update`: first the client-side check
`if name is None or message is None or status is None or visible is None:
raise ValueError(...)`, then (and only then) the PUT request to
`{path}/{id}` with the partial payload.
Modelled from the spec for the part outside `src/`: `Manager._update`
PUTs the built payload to the resource path. -/
def incidentUpdate (incident_id : Int) (a : UpdateArgs) :
    Except PyError HttpRequest :=
  if a.name.isNone || a.message.isNone || a.status.isNone || a.visible.isNone then
    .error (.valueError "name, message, status and visible are required parameters")
  else
    .ok { verb := .put,
          path := "incidents/" ++ toString incident_id,
          payload := buildDataDict (updateRawPairs a) }

/-- The HTTP requests issued by a call to `IncidentManager.update`: none when
the client-side validation raises, exactly the one PUT otherwise. -/
def incidentUpdateTrace (incident_id : Int) (a : UpdateArgs) : List HttpRequest :=
  match incidentUpdate incident_id a with
  | .error _ => []
  | .ok r => [r]

/-- The payload of a manager call's request, `[]` in the error case. -/
def reqPayload : Except PyError HttpRequest → DataDict
  | .ok r => r.payload
  | .error _ => []

/-- Server state for read operations: the incidents the server holds, as raw
JSON rows, in the server's enumeration order. -/
abbrev ServerState := List DataDict

/-- The row whose `id` field equals the requested id, if any. -/
def findIncident (srv : ServerState) (incident_id : Int) : Option DataDict :=
  srv.find? (fun d => pyEq (dataGet d "id") (.int incident_id))

/-- `IncidentManager.get`: the GET request to `{path}/{id}` together with its
outcome.
Modelled from the spec: `cachetclient.base.Manager._get` is not under `src/`;
per §4.1/§7 it GETs `{path}/{id}` and returns the Resource built from the
response, failing with `NotFoundError` when the server answers 404 (no
incident with that id). -/
def incidentGet (srv : ServerState) (incident_id : Int) :
    Except PyError Incident × HttpRequest :=
  (match findIncident srv incident_id with
   | none => .error .notFoundError
   | some d => .ok ⟨d⟩,
   { verb := .get, path := "incidents/" ++ toString incident_id, payload := [] })

/-- `meta.pagination.total_pages` for a collection of `total` rows listed
`perPage` at a time: `⌈total / perPage⌉`, and at least 1 (a listing of an
empty collection still answers one page with an empty `data`). -/
def totalPages (total perPage : Nat) : Nat :=
  max ((total + perPage - 1) / perPage) 1

/-- The `data` array of page `page` (1-based) with `perPage` rows per page. -/
def pageData (srv : ServerState) (perPage page : Nat) : List DataDict :=
  (srv.drop ((page - 1) * perPage)).take perPage

/-- Modelled from the spec: `cachetclient.base.Manager._list_paginated` is not
under `src/`; per §3/§4.1 it fetches one page at a time, emits each page's
`data` entries, and advances `page` until `current_page == total_pages`
(every fetch starting at a page not past the last one). -/
def listPaginated (srv : ServerState) (perPage page : Nat) : List DataDict :=
  if h : totalPages srv.length perPage ≤ page then
    pageData srv perPage page
  else
    pageData srv perPage page ++ listPaginated srv perPage (page + 1)
termination_by totalPages srv.length perPage - page
decreasing_by omega

/-- `IncidentManager.list` with its default arguments `page=1, per_page=1`,
fully drained. -/
def incidentList (srv : ServerState) : List DataDict :=
  listPaginated srv 1 1

/-- The pagination envelope `meta.pagination` returned with a page. -/
structure Pagination where
  total : Nat
  count : Nat
  per_page : Nat
  current_page : Nat
  total_pages : Nat
  deriving DecidableEq, Repr

/-- The envelope the server sends with page `page` of a `perPage`-sized
listing; `total` is the size of the whole collection (spec §3 invariant). -/
def mkPagination (srv : ServerState) (perPage page : Nat) : Pagination :=
  { total := srv.length,
    count := (pageData srv perPage page).length,
    per_page := perPage,
    current_page := page,
    total_pages := totalPages srv.length perPage }

/-- `IncidentManager.count`.
Modelled from the spec: `cachetclient.base.Manager._count` is not under
`src/`; per §4.1 it "performs a `list` with minimal page size and reads
`meta.pagination.total`, discarding rows". -/
def incidentCount (srv : ServerState) : Nat :=
  (mkPagination srv 1 1).total

/-- `true` iff the manager call completed without raising. -/
def exceptOk {α : Type} : Except PyError α → Bool
  | .ok _ => true
  | .error _ => false

/-- The ten payload keys an incident create/update call can send. -/
def incidentPayloadKeys : List String :=
  ["name", "message", "status", "visible", "component_id",
   "component_status", "notify", "created_at", "template", "vars"]

/-! ### Concrete fixtures (inputs used by witnesses and counterexamples) -/

/-- An update call that leaves `name` absent (`None`). -/
def argsNoName : UpdateArgs :=
  { message := some "We are looking into it", status := some 1, visible := some true }

/-- An incident whose stored data came off the wire, booleans serialized as
the integers 0/1 (spec §6). -/
def incidentFromWire : Incident :=
  ⟨[("id", .int 1), ("name", .str "Something blew up!"), ("status", .int 1),
    ("visible", .int 1), ("notify", .int 1)]⟩

/-- An incident whose stored `visible` is the string boolean `"1"`. -/
def incidentStrVisible : Incident :=
  ⟨[("id", .int 2), ("visible", .str "1")]⟩

/-- An incident with no stored `visible` value (null / absent). -/
def incidentNoVisible : Incident :=
  ⟨[("id", .int 3)]⟩

/-- A concrete create call (`notify=False` to exercise the 0 branch). -/
def createArgs0 : CreateArgs :=
  { name := "Something blew up!", message := "We are looking into it",
    status := 1, visible := true, notify := false }

/-- Two server rows and a server holding them. -/
def row1 : DataDict := [("id", .int 1), ("name", .str "A")]

/-- Second server row. -/
def row2 : DataDict := [("id", .int 2), ("name", .str "B")]

/-- A server holding incidents 1 and 2. -/
def srv0 : ServerState := [row1, row2]

/-- A concrete incident for the setter claims. -/
def i0 : Incident :=
  ⟨[("id", .int 7), ("name", .str "old"), ("status", .int 2)]⟩

/-! ### Helper lemmas -/

/-- Reading the backing dict after a write: the written key holds the new
value, every other key is untouched. -/
theorem dataGet_dataSet (d : DataDict) (key k : String) (v : JValue) :
    dataGet (dataSet d key v) k = if key = k then v else dataGet d k := by
  induction d with
  | nil => simp [dataSet, dataGet]
  | cons p rest ih =>
    obtain ⟨k', v'⟩ := p
    by_cases h1 : k' = key
    · subst h1
      by_cases h2 : k' = k <;> simp [dataSet, dataGet, h2]
    · have h3 : ¬ key = k' := fun e => h1 e.symm
      by_cases h2 : k' = k
      · subst h2
        simp [dataSet, dataGet, h1, h3]
      · simp [dataSet, dataGet, h1, h2, ih]

/-- Frame part of `dataGet_dataSet`: other keys read unchanged. -/
theorem dataGet_dataSet_ne (d : DataDict) (key k : String) (v : JValue)
    (h : k ≠ key) : dataGet (dataSet d key v) k = dataGet d k := by
  rw [dataGet_dataSet, if_neg (fun e => h e.symm)]

/-- A collection of `t` rows fits in `totalPages t pp` pages of `pp` rows. -/
theorem length_le_totalPages_mul (t pp : Nat) (hpp : 1 ≤ pp) :
    t ≤ totalPages t pp * pp := by
  unfold totalPages
  rcases max_choice ((t + pp - 1) / pp) 1 with hm | hm <;> rw [hm]
  · have hd := Nat.div_add_mod (t + pp - 1) pp
    have hr : (t + pp - 1) % pp < pp := Nat.mod_lt _ (by omega)
    have hc : (t + pp - 1) / pp * pp = pp * ((t + pp - 1) / pp) :=
      Nat.mul_comm _ _
    omega
  · rw [Nat.one_mul]
    have hq : (t + pp - 1) / pp ≤ 1 :=
      le_trans (Nat.le_max_left _ _) (le_of_eq hm)
    by_contra hlt
    push_neg at hlt
    have h2 : 2 ≤ (t + pp - 1) / pp :=
      (Nat.le_div_iff_mul_le (by omega)).mpr (by omega)
    omega

/-- Draining the paginated listing from page `page ≤ total_pages` yields
exactly the rows from offset `(page-1)*pp` on, in server order. -/
theorem listPaginated_eq_drop (srv : ServerState) (pp : Nat) (hpp : 1 ≤ pp) :
    ∀ n page, 1 ≤ page → totalPages srv.length pp - page = n →
      page ≤ totalPages srv.length pp →
      listPaginated srv pp page = srv.drop ((page - 1) * pp) := by
  intro n
  induction n with
  | zero =>
    intro page h1 h2 h3
    have hpage : totalPages srv.length pp ≤ page := by omega
    rw [listPaginated, dif_pos hpage]
    apply List.take_of_length_le
    rw [List.length_drop]
    have heq : page = totalPages srv.length pp := le_antisymm h3 hpage
    have hle : srv.length ≤ totalPages srv.length pp * pp :=
      length_le_totalPages_mul srv.length pp hpp
    have hsub : (page - 1) * pp = page * pp - pp := by
      rw [Nat.sub_mul, Nat.one_mul]
    have hmul : page * pp = totalPages srv.length pp * pp := by rw [heq]
    omega
  | succ n ih =>
    intro page h1 h2 h3
    have hpage : ¬ totalPages srv.length pp ≤ page := by omega
    rw [listPaginated, dif_neg hpage]
    have hrec : listPaginated srv pp (page + 1) = srv.drop (page * pp) := by
      have := ih (page + 1) (by omega) (by omega) (by omega)
      simpa using this
    rw [hrec]
    have hstep : page * pp = (page - 1) * pp + pp := by
      have hone : page - 1 + 1 = page := by omega
      calc page * pp = (page - 1 + 1) * pp := by rw [hone]
        _ = (page - 1) * pp + pp := by rw [Nat.succ_mul]
    rw [hstep]
    exact List.drop_take_append_drop srv ((page - 1) * pp) pp

/-! ### Claim theorems -/

/-- C1 counterexample: `IncidentManager.update` called with `name` absent
raises Python's builtin `ValueError`, not an error of the spec's
`ValidationError` class — the claim as stated fails on the class of the
raised error. -/
theorem C1_counterexample :
    isValidationError (incidentUpdate 1 argsNoName) = false ∧
    incidentUpdate 1 argsNoName =
      .error (.valueError
        "name, message, status and visible are required parameters") := by
  constructor <;> rfl

/-- C1 (amended): for every call to `IncidentManager.update` in which any of
the required fields `name`, `message`, `status`, `visible` is absent (`None`),
a `ValueError` is raised client-side before any network request is issued,
and the call performs no HTTP round-trip (its request trace is empty). -/
theorem C1_update_missing_required_field (incident_id : Int) (a : UpdateArgs)
    (h : (a.name.isNone || a.message.isNone ||
          a.status.isNone || a.visible.isNone) = true) :
    incidentUpdate incident_id a =
      .error (.valueError
        "name, message, status and visible are required parameters") ∧
    incidentUpdateTrace incident_id a = [] := by
  have he : incidentUpdate incident_id a =
      .error (.valueError
        "name, message, status and visible are required parameters") := by
    unfold incidentUpdate
    rw [if_pos h]
  refine ⟨he, ?_⟩
  unfold incidentUpdateTrace
  rw [he]

/-- C1 witness: the amended theorem applied to a concrete update call that
leaves `name` absent. -/
theorem C1_witness :
    incidentUpdate 1 argsNoName =
      .error (.valueError
        "name, message, status and visible are required parameters") ∧
    incidentUpdateTrace 1 argsNoName = [] :=
  C1_update_missing_required_field 1 argsNoName (by decide)

/-- C2: on stored wire data (booleans serialized as the integers 0/1), the
`visible` getter does return a boolean, and create serializes `visible` and
`notify` as 0/1 — but the `notify` getter returns the raw stored integer,
not a boolean, contradicting its own docstring (`bool:`). -/
theorem C2_notify_getter_not_boolean :
    Incident.visible incidentFromWire = true ∧
    Incident.notify incidentFromWire = JValue.int 1 ∧
    (Incident.notify incidentFromWire).isBool = false ∧
    dataGet (incidentCreate createArgs0).payload "visible" = JValue.int 1 ∧
    dataGet (incidentCreate createArgs0).payload "notify" = JValue.int 0 := by
  refine ⟨rfl, rfl, rfl, rfl, rfl⟩

/-- C3 counterexample: a stored string boolean `"1"` reads back through
`Incident.visible` as `False` (the claim says `"1"` maps to `True`), and an
absent/null stored value reads back as the boolean `False` (the claim says
null maps to `None`/absent, not to a boolean). -/
theorem C3_counterexample :
    Incident.visible incidentStrVisible = false ∧
    Incident.visible incidentNoVisible = false := by
  constructor <;> rfl

/-- C3 (amended): `Incident.visible` computes `stored == 1` under Python
equality: it returns `True` exactly when the stored raw value is the integer
`1` or the boolean `True`; string booleans (`"0"`/`"1"`) and null/absent
values all map to `False`, never to `None`. -/
theorem C3_visible_getter_eq_one (d : DataDict) :
    Incident.visible ⟨d⟩ = true ↔
      (dataGet d "visible" = JValue.int 1 ∨
       dataGet d "visible" = JValue.bool true) := by
  unfold Incident.visible Incident.get
  cases h : dataGet d "visible" with
  | null => simp [pyEq, pyNum, h]
  | bool b => cases b <;> simp [pyEq, pyNum, h]
  | int n => simp [pyEq, pyNum, h]
  | str s => simp [pyEq, pyNum, h]
  | strList vs => simp [pyEq, pyNum, h]

/-- C4: every call to `IncidentManager.create` issues a POST to the resource
path whose body contains only non-null fields: each key among
`component_id`, `component_status`, `created_at`, `template`, `vars` is
present exactly when its argument is not `None`, every value sent is
non-null, and only recognized payload keys are sent. -/
theorem C4_create_omits_null_fields (a : CreateArgs) :
    (incidentCreate a).verb = Verb.post ∧
    (incidentCreate a).path = "incidents" ∧
    (incidentCreate a).payload.any (fun p => p.1 == "component_id")
      = a.component_id.isSome ∧
    (incidentCreate a).payload.any (fun p => p.1 == "component_status")
      = a.component_status.isSome ∧
    (incidentCreate a).payload.any (fun p => p.1 == "created_at")
      = a.created_at.isSome ∧
    (incidentCreate a).payload.any (fun p => p.1 == "template")
      = a.template.isSome ∧
    (incidentCreate a).payload.any (fun p => p.1 == "vars")
      = a.template_vars.isSome ∧
    (incidentCreate a).payload.all (fun p => !p.2.isNull) = true ∧
    (incidentCreate a).payload.all
      (fun p => incidentPayloadKeys.contains p.1) = true := by
  obtain ⟨nm, msg, st, vis, cid, cst, ntf, cat, tmpl, tv⟩ := a
  cases cid <;> cases cst <;> cases cat <;> cases tmpl <;> cases tv <;>
    exact ⟨rfl, rfl, rfl, rfl, rfl, rfl, rfl, rfl, rfl⟩

/-- C5: every call to `IncidentManager.update` that passes the client-side
validation (all four required fields present) succeeds in building a PUT
whose payload is partial: each optional key among `component_id`,
`component_status`, `created_at`, `template`, `vars` is present exactly when
its argument is not `None`, and only the remaining fields — all non-null,
all among the recognized payload keys — are sent. -/
theorem C5_update_partial_payload (incident_id : Int) (nm msg : String)
    (st : Int) (vis ntf : Bool) (cid cst : Option Int)
    (cat tmpl : Option String) (tv : Option (List String)) :
    let a : UpdateArgs :=
      { name := some nm, message := some msg, status := some st,
        visible := some vis, component_id := cid, component_status := cst,
        notify := ntf, created_at := cat, template := tmpl,
        template_vars := tv }
    exceptOk (incidentUpdate incident_id a) = true ∧
    (reqPayload (incidentUpdate incident_id a)).any
      (fun p => p.1 == "component_id") = cid.isSome ∧
    (reqPayload (incidentUpdate incident_id a)).any
      (fun p => p.1 == "component_status") = cst.isSome ∧
    (reqPayload (incidentUpdate incident_id a)).any
      (fun p => p.1 == "created_at") = cat.isSome ∧
    (reqPayload (incidentUpdate incident_id a)).any
      (fun p => p.1 == "template") = tmpl.isSome ∧
    (reqPayload (incidentUpdate incident_id a)).any
      (fun p => p.1 == "vars") = tv.isSome ∧
    (reqPayload (incidentUpdate incident_id a)).any
      (fun p => p.1 == "name") = true ∧
    (reqPayload (incidentUpdate incident_id a)).any
      (fun p => p.1 == "message") = true ∧
    (reqPayload (incidentUpdate incident_id a)).any
      (fun p => p.1 == "status") = true ∧
    (reqPayload (incidentUpdate incident_id a)).any
      (fun p => p.1 == "visible") = true ∧
    (reqPayload (incidentUpdate incident_id a)).all
      (fun p => !p.2.isNull) = true ∧
    (reqPayload (incidentUpdate incident_id a)).all
      (fun p => incidentPayloadKeys.contains p.1) = true := by
  cases cid <;> cases cst <;> cases cat <;> cases tmpl <;> cases tv <;>
    exact ⟨rfl, rfl, rfl, rfl, rfl, rfl, rfl, rfl, rfl, rfl, rfl, rfl⟩

/-- C6: `IncidentManager.get` issues a GET on `{path}/{id}`; when the server
holds an incident with the requested id the call returns that Incident, and
when it holds none (the server answers 404) the call fails with
`NotFoundError`. -/
theorem C6_get_or_not_found (srv : ServerState) (incident_id : Int) :
    (incidentGet srv incident_id).2 =
      { verb := Verb.get, path := "incidents/" ++ toString incident_id,
        payload := [] } ∧
    (findIncident srv incident_id = none →
      (incidentGet srv incident_id).1 = .error PyError.notFoundError) ∧
    (∀ d : DataDict, findIncident srv incident_id = some d →
      (incidentGet srv incident_id).1 = .ok ⟨d⟩) := by
  refine ⟨rfl, ?_, ?_⟩
  · intro h
    simp [incidentGet, h]
  · intro d h
    simp [incidentGet, h]

/-- C6 witness: the theorem applied to a concrete two-incident server — a
request for absent id 5 fails with `NotFoundError`, one for present id 2
returns that incident. -/
theorem C6_witness :
    (incidentGet srv0 5).1 = .error PyError.notFoundError ∧
    (incidentGet srv0 2).1 = .ok ⟨row2⟩ :=
  ⟨(C6_get_or_not_found srv0 5).2.1 rfl,
   (C6_get_or_not_found srv0 2).2.2 row2 rfl⟩

/-- C7: every `Incident` property setter (`component_id`, `name`, `message`,
`notify`, `status`, `visible`) stages the change in the local `_data` mapping
only: it issues no HTTP request, writes exactly its one key, and leaves every
other stored field unchanged. -/
theorem C7_setters_stage_locally (i : Incident) (cid st : Int)
    (nm msg : String) (ntf vis : Bool) (k : String) :
    ((i.setComponentId cid).2 = [] ∧
      (i.setComponentId cid).1.get "component_id" = JValue.int cid ∧
      (k ≠ "component_id" → (i.setComponentId cid).1.get k = i.get k)) ∧
    ((i.setName nm).2 = [] ∧
      (i.setName nm).1.get "name" = JValue.str nm ∧
      (k ≠ "name" → (i.setName nm).1.get k = i.get k)) ∧
    ((i.setMessage msg).2 = [] ∧
      (i.setMessage msg).1.get "message" = JValue.str msg ∧
      (k ≠ "message" → (i.setMessage msg).1.get k = i.get k)) ∧
    ((i.setNotify ntf).2 = [] ∧
      (i.setNotify ntf).1.get "notify" = JValue.bool ntf ∧
      (k ≠ "notify" → (i.setNotify ntf).1.get k = i.get k)) ∧
    ((i.setStatus st).2 = [] ∧
      (i.setStatus st).1.get "status" = JValue.int st ∧
      (k ≠ "status" → (i.setStatus st).1.get k = i.get k)) ∧
    ((i.setVisible vis).2 = [] ∧
      (i.setVisible vis).1.get "visible" = JValue.bool vis ∧
      (k ≠ "visible" → (i.setVisible vis).1.get k = i.get k)) := by
  refine ⟨⟨rfl, ?_, fun hk => ?_⟩, ⟨rfl, ?_, fun hk => ?_⟩,
    ⟨rfl, ?_, fun hk => ?_⟩, ⟨rfl, ?_, fun hk => ?_⟩,
    ⟨rfl, ?_, fun hk => ?_⟩, ⟨rfl, ?_, fun hk => ?_⟩⟩ <;>
    first
      | exact dataGet_dataSet_ne _ _ _ _ hk
      | simp [Incident.get, Incident.setComponentId, Incident.setName,
          Incident.setMessage, Incident.setNotify, Incident.setStatus,
          Incident.setVisible, dataGet_dataSet]

/-- C7 witness: the theorem applied to a concrete incident — setting `name`
issues no request, writes `name`, and leaves `status` untouched. -/
theorem C7_witness :
    (i0.setName "A").2 = [] ∧
    (i0.setName "A").1.get "name" = JValue.str "A" ∧
    (i0.setName "A").1.get "status" = i0.get "status" := by
  have h := C7_setters_stage_locally i0 0 0 "A" "m" true true "status"
  exact ⟨h.2.1.1, h.2.1.2.1, h.2.1.2.2 (by decide)⟩

/-- C8: for a fixed server state, `IncidentManager.count` returns the same
number as the count of incidents obtained by fully draining the paginated
listing of `IncidentManager.list()` over all pages. -/
theorem C8_count_eq_list_length (srv : ServerState) :
    incidentCount srv = (incidentList srv).length := by
  have h1 : (1 : Nat) ≤ totalPages srv.length 1 := by
    unfold totalPages
    exact Nat.le_max_right _ _
  have h := listPaginated_eq_drop srv 1 (le_refl 1)
    (totalPages srv.length 1 - 1) 1 (le_refl 1) rfl h1
  unfold incidentCount incidentList mkPagination
  rw [h]
  simp

/-- C9: every call to `IncidentManager.update` that passes client-side
validation sends the `notify` field, with value 1 or 0: the `1 if notify
else 0` serialization is never `None`, so `_build_data_dict` never drops it,
even when the caller relies on the default `notify=True`. -/
theorem C9_update_always_sends_notify (incident_id : Int) (nm msg : String)
    (st : Int) (vis ntf : Bool) (cid cst : Option Int)
    (cat tmpl : Option String) (tv : Option (List String)) :
    let a : UpdateArgs :=
      { name := some nm, message := some msg, status := some st,
        visible := some vis, component_id := cid, component_status := cst,
        notify := ntf, created_at := cat, template := tmpl,
        template_vars := tv }
    (reqPayload (incidentUpdate incident_id a)).any
      (fun p => p.1 == "notify") = true ∧
    dataGet (reqPayload (incidentUpdate incident_id a)) "notify"
      = JValue.int (if ntf then 1 else 0) ∧
    (dataGet (reqPayload (incidentUpdate incident_id a)) "notify"
        = JValue.int 1 ∨
     dataGet (reqPayload (incidentUpdate incident_id a)) "notify"
        = JValue.int 0) := by
  cases ntf <;> cases cid <;> cases cst <;> cases cat <;> cases tmpl <;>
      cases tv <;>
    first
      | exact ⟨rfl, rfl, Or.inl rfl⟩
      | exact ⟨rfl, rfl, Or.inr rfl⟩

/-- C10: for every boolean `b`, assigning `incident.visible = b` and then
reading `incident.visible` returns `b` — the setter stores the raw Python
boolean and the getter compares it to the integer 1, which round-trips
because Python's `True == 1` and `False != 1`. -/
theorem C10_visible_local_roundtrip (i : Incident) (b : Bool) :
    ((i.setVisible b).1).visible = b := by
  unfold Incident.visible Incident.setVisible Incident.get
  rw [dataGet_dataSet, if_pos rfl]
  cases b <;> rfl

end Cachet
